import Mathlib

/-!
Verification of the softmax operator registration shim
(`src/operator/nn/softmax.cc`) of the MXNet repository fragment.

The file shallowly embeds, in Lean 4:

* the MKLDNN/Generic backend dispatch of `SoftmaxComputeExCPU`;
* the storage-type inference `SoftmaxStorageType` together with a model of
  `storage_type_assign` / `type_assign` (declared outside the fragment);
* the gradient-linkage registration `ElemwiseGradUseOut`;
* the softmax / log-softmax forward and backward kernels
  (`Softmax`, `SoftmaxGrad`, `softmax_fwd`, `log_softmax_fwd`,
  `softmax_bwd`, `log_softmax_bwd`, `mshadow_op::mul`, `mshadow_op::left`),
  whose bodies live in `softmax-inl.h`, outside the shown fragment, and are
  therefore modelled from the specification; floating point is modelled by ℝ.
-/

namespace MXNet

/-- Storage layout of an `NDArray`: the standard dense layout, or the
accelerated (MKLDNN-internal) layout. -/
inductive StorageLayout where
  | denseLayout : StorageLayout
  | mkldnnLayout : StorageLayout
deriving DecidableEq, Repr

/-- The metadata of an input/output array that the dispatcher consults:
its memory layout descriptor. -/
structure NDArray where
  layout : StorageLayout
deriving DecidableEq, Repr

instance : Inhabited NDArray := ⟨⟨StorageLayout.denseLayout⟩⟩

/-- The per-operator-instance configuration parsed by `ParamParser`.
Modelled from the spec: `SoftmaxParam` is declared in `softmax-inl.h`,
outside the fragment; per the spec's configuration surface and its open
question on dispatch ordering, construction stores the user-supplied axis
unchanged (possibly negative; the default is the last-axis sentinel `-1`),
and normalization happens later, at call time, inside the kernel. -/
structure SoftmaxParam where
  axis : Int
deriving DecidableEq, Repr

/-- Construction of the configuration from the user-supplied axis:
the axis is stored as given, with no normalization. -/
def SoftmaxParam.init (axis : Int) : SoftmaxParam := ⟨axis⟩

/-- Modelled from the spec: call-time axis normalization (`CheckAxis`,
declared outside the fragment): a negative axis counts from the last
dimension, i.e. is replaced by `axis + rank`. -/
def CheckAxis (axis : Int) (ndim : Nat) : Int :=
  if axis < 0 then axis + ndim else axis

/-- The execution-mode flag of a call (`OpContext::is_train`). -/
structure OpContext where
  is_train : Bool
deriving DecidableEq, Repr

/-- The backend decision taken per forward call. -/
inductive Path where
  | accelerated : Path
  | generic : Path
deriving DecidableEq, Repr

/-- Modelled from the spec: `FallBackCompute` (declared outside the
fragment) forces any input currently held in the accelerated layout to the
standard dense layout before running the generic kernel. -/
def FallBackCompute (inputs : List NDArray) : List NDArray :=
  inputs.map fun a =>
    if a.layout = StorageLayout.mkldnnLayout then ⟨StorageLayout.denseLayout⟩ else a

/-- Embedding of `SoftmaxComputeExCPU` (softmax.cc lines 36–53): route to
the accelerated backend iff `SupportMKLDNN(inputs[0]) && !ctx.is_train &&
param.axis >= 0`, otherwise fall back to the generic kernel on converted
inputs.  The external capability oracle `SupportMKLDNN` is passed as the
function `supportMKLDNN`; the returned pair records the decision and the
inputs the selected kernel actually receives. -/
def SoftmaxComputeExCPU (supportMKLDNN : NDArray → Bool)
    (param : SoftmaxParam) (ctx : OpContext) (inputs : List NDArray) :
    Path × List NDArray :=
  if supportMKLDNN inputs.headI && !ctx.is_train && decide (0 ≤ param.axis) then
    (Path.accelerated, inputs)
  else
    (Path.generic, FallBackCompute inputs)

/-- The storage-type/dispatch-mode codes used by storage inference. -/
inductive DispatchMode where
  | kUndefined : DispatchMode
  | kFCompute : DispatchMode
  | kFComputeEx : DispatchMode
deriving DecidableEq, Repr

/-- `mshadow::cpu::kDevMask`. -/
def cpuDevMask : Nat := 1

/-- The error raised when an arity/shape check at the adapter boundary
fails (`CHECK_EQ` aborts the call). -/
inductive MXError where
  | arityError : String → MXError
deriving DecidableEq, Repr

/-- Modelled from the spec: `type_assign` (declared outside the fragment):
assign storage type `x` to slot `y`; a slot holding the undefined sentinel
`-1` is overwritten, otherwise the assignment succeeds only if the slot
already holds `x`.  Returns the new slot value and the success flag. -/
def type_assign (y x : Int) : Int × Bool :=
  if y = -1 then (x, true) else (y, decide (y = x))

/-- Modelled from the spec: `storage_type_assign` (declared outside the
fragment): assign the storage type `stype` to every slot of `attrs`;
succeed iff every slot assignment succeeds. -/
def storage_type_assign (attrs : List Int) (stype : Int) : List Int × Bool :=
  attrs.foldr
    (fun a acc =>
      let r := type_assign a stype
      (r.1 :: acc.1, r.2 && acc.2))
    ([], true)

/-- Embedding of `SoftmaxStorageType` (softmax.cc lines 56–74): check the
arity of the input and output attribute vectors (`CHECK_EQ(..., 1)`), pick
the wanted dispatch mode from the device mask, then assign the input's
storage type `(*in_attrs)[0]` to the output attributes.  The result pair
records the final output-attribute vector (unchanged on an early arity
error) and either the error or the assigned dispatch mode with the success
flag. -/
def SoftmaxStorageType (dev_mask : Nat) (in_attrs out_attrs : List Int) :
    List Int × Except MXError (DispatchMode × Bool) :=
  if in_attrs.length ≠ 1 then
    (out_attrs, Except.error (MXError.arityError "in_attrs.size() != 1"))
  else if out_attrs.length ≠ 1 then
    (out_attrs, Except.error (MXError.arityError "out_attrs.size() != 1"))
  else
    let wanted_mode :=
      if dev_mask = cpuDevMask then DispatchMode.kFComputeEx else DispatchMode.kFCompute
    let r := storage_type_assign out_attrs in_attrs.headI
    (r.1, Except.ok ((if r.2 then wanted_mode else DispatchMode.kUndefined), r.2))

/-- The role a tensor plays across the forward/backward boundary. -/
inductive TensorRole where
  | inputX : TensorRole
  | outputY : TensorRole
  | ogradDy : TensorRole
deriving DecidableEq, Repr

/-- Modelled from the spec: `ElemwiseGradUseOut` (declared outside the
fragment) builds the gradient node for an operator whose backward consumes
the head gradient and the forward's own output — the dependency list it
declares to the graph system is `[dy, y]`, not containing the input `x`. -/
def ElemwiseGradUseOut (opName : String) : String × List TensorRole :=
  (opName, [TensorRole.ogradDy, TensorRole.outputY])

/-- The `FGradient` registration of `softmax` (softmax.cc line 108). -/
def softmaxFGradient : String × List TensorRole :=
  ElemwiseGradUseOut "_backward_softmax"

/-- The `FGradient` registration of `log_softmax` (softmax.cc line 135). -/
def log_softmaxFGradient : String × List TensorRole :=
  ElemwiseGradUseOut "_backward_log_softmax"

/-- Modelled from the spec: `mshadow_op::mul` (declared outside the
fragment), the weighted reduction map `a * b` used by softmax-backward. -/
noncomputable def mul (a b : ℝ) : ℝ := a * b

/-- Modelled from the spec: `mshadow_op::left` (declared outside the
fragment), the unweighted reduction map returning its left operand `a`
(the head gradient alone) used by log-softmax-backward. -/
noncomputable def left (a b : ℝ) : ℝ := a

/-- Modelled from the spec: `mxnet_op::softmax_bwd` (declared outside the
fragment), the elementwise combine of softmax-backward:
`Map(ograd, out, sum) = out * (ograd - sum)`. -/
noncomputable def softmax_bwd (ograd out ssum : ℝ) : ℝ := out * (ograd - ssum)

/-- Modelled from the spec: `mxnet_op::log_softmax_bwd` (declared outside
the fragment), the elementwise combine of log-softmax-backward:
`Map(ograd, out, sum) = ograd - exp(out) * sum`. -/
noncomputable def log_softmax_bwd (ograd out ssum : ℝ) : ℝ :=
  ograd - Real.exp out * ssum

/-- Modelled from the spec: the generic backward kernel `SoftmaxGrad`
(declared outside the fragment) on one axis slice: reduce the slice with
`op1` over pairs (head-gradient element, saved-output element), then apply
the elementwise combine `op2` with that per-axis sum.  `SoftmaxGradCompute
OP1 OP2` of softmax.cc lines 113–114 and 140–141 instantiates it. -/
noncomputable def SoftmaxGrad (op1 : ℝ → ℝ → ℝ) (op2 : ℝ → ℝ → ℝ → ℝ)
    {n : ℕ} (ograd out : Fin n → ℝ) : Fin n → ℝ :=
  fun i => op2 (ograd i) (out i) (∑ j, op1 (ograd j) (out j))

/-- Modelled from the spec: `mxnet_op::softmax_fwd` (declared outside the
fragment), the elementwise finish of softmax-forward applied to the
max-shifted value `a = x - max`: `Map(a, sum) = exp(a) / sum`. -/
noncomputable def softmax_fwd (a ssum : ℝ) : ℝ := Real.exp a / ssum

/-- Modelled from the spec: `mxnet_op::log_softmax_fwd` (declared outside
the fragment), the elementwise finish of log-softmax-forward:
`Map(a, sum) = a - log(sum)`. -/
noncomputable def log_softmax_fwd (a ssum : ℝ) : ℝ := a - Real.log ssum

/-- The per-slice maximum along the normalized axis (pass 1 of the
stabilized reduction). -/
noncomputable def axisMax {n : ℕ} (x : Fin (n + 1) → ℝ) : ℝ :=
  Finset.univ.sup' Finset.univ_nonempty x

/-- Modelled from the spec: the generic forward kernel `Softmax` (declared
outside the fragment) on one axis slice of positive length: subtract the
per-slice maximum, sum the exponentials, and finish each element with
`op` applied to the shifted value and the sum. -/
noncomputable def SoftmaxCompute (op : ℝ → ℝ → ℝ)
    {n : ℕ} (x : Fin (n + 1) → ℝ) : Fin (n + 1) → ℝ :=
  fun i => op (x i - axisMax x) (∑ j, Real.exp (x j - axisMax x))

/-- The forward kernel applied independently to every batch slice of a
tensor, the axis dimension being the inner index. -/
noncomputable def SoftmaxComputeBatched (op : ℝ → ℝ → ℝ) {β : Type} {n : ℕ}
    (x : β → Fin (n + 1) → ℝ) : β → Fin (n + 1) → ℝ :=
  fun b => SoftmaxCompute op (x b)

/-- Every array produced by the fallback conversion is in the standard
dense layout. -/
theorem FallBackCompute_dense (inputs : List NDArray) :
    ∀ a ∈ FallBackCompute inputs, a.layout = StorageLayout.denseLayout := by
  intro a ha
  simp only [FallBackCompute, List.mem_map] at ha
  obtain ⟨b, _, rfl⟩ := ha
  cases hb : b.layout with
  | denseLayout => simp [hb]
  | mkldnnLayout => simp [hb]

/-- Claim C1: the dispatcher selects the Accelerated path iff the
accelerated backend supports the input layout, the call is not training,
and the configured axis is non-negative; in every other case it selects
Generic and hands the generic kernel inputs converted to the dense
layout. -/
theorem dispatch_accelerated_iff_generic_converts
    (supportMKLDNN : NDArray → Bool) (param : SoftmaxParam) (ctx : OpContext)
    (inputs : List NDArray) :
    ((SoftmaxComputeExCPU supportMKLDNN param ctx inputs).1 = Path.accelerated ↔
      supportMKLDNN inputs.headI = true ∧ ctx.is_train = false ∧ 0 ≤ param.axis) ∧
    ((SoftmaxComputeExCPU supportMKLDNN param ctx inputs).1 = Path.generic →
      (SoftmaxComputeExCPU supportMKLDNN param ctx inputs).2 = FallBackCompute inputs ∧
      ∀ a ∈ (SoftmaxComputeExCPU supportMKLDNN param ctx inputs).2,
        a.layout = StorageLayout.denseLayout) := by
  unfold SoftmaxComputeExCPU
  by_cases h : (supportMKLDNN inputs.headI && !ctx.is_train && decide (0 ≤ param.axis)) = true
  · rw [if_pos h]
    simp only [Bool.and_eq_true, Bool.not_eq_true', decide_eq_true_eq] at h
    refine ⟨⟨fun _ => ⟨h.1.1, h.1.2, h.2⟩, fun _ => rfl⟩, fun hg => ?_⟩
    exact absurd hg (by simp)
  · rw [if_neg h]
    refine ⟨⟨fun hg => absurd hg (by simp), fun hc => ?_⟩,
      fun _ => ⟨rfl, FallBackCompute_dense inputs⟩⟩
    exact absurd (by simp [hc.1, hc.2.1, hc.2.2]) h

/-- Witness for claim C1 at a concrete call: supported layout, inference
mode, axis 1. -/
theorem dispatch_accelerated_iff_generic_converts_witness :
    ((SoftmaxComputeExCPU (fun _ => true) ⟨1⟩ ⟨false⟩
        [⟨StorageLayout.mkldnnLayout⟩]).1 = Path.accelerated ↔
      (fun _ : NDArray => true)
          ([(⟨StorageLayout.mkldnnLayout⟩ : NDArray)]).headI = true ∧
      (⟨false⟩ : OpContext).is_train = false ∧ 0 ≤ (⟨1⟩ : SoftmaxParam).axis) ∧
    ((SoftmaxComputeExCPU (fun _ => true) ⟨1⟩ ⟨false⟩
        [⟨StorageLayout.mkldnnLayout⟩]).1 = Path.generic →
      (SoftmaxComputeExCPU (fun _ => true) ⟨1⟩ ⟨false⟩
        [⟨StorageLayout.mkldnnLayout⟩]).2 =
          FallBackCompute [⟨StorageLayout.mkldnnLayout⟩] ∧
      ∀ a ∈ (SoftmaxComputeExCPU (fun _ => true) ⟨1⟩ ⟨false⟩
        [⟨StorageLayout.mkldnnLayout⟩]).2,
        a.layout = StorageLayout.denseLayout) :=
  dispatch_accelerated_iff_generic_converts (fun _ => true) ⟨1⟩ ⟨false⟩
    [⟨StorageLayout.mkldnnLayout⟩]

/-- Counterexample for claim C2: a call with `is_train = false` and a
layout the backend declares supported nevertheless selects the Generic
path, because the configured axis is the negative sentinel `-1`. -/
theorem inference_supported_layout_not_accelerated_cex :
    (SoftmaxComputeExCPU (fun _ => true) (SoftmaxParam.init (-1)) ⟨false⟩
        [⟨StorageLayout.mkldnnLayout⟩]).1 ≠ Path.accelerated := by
  decide

/-- Claim C2 (amended): with a fixed configuration, `is_train = true`
always selects Generic regardless of layout support; `is_train = false`
with a supported layout selects Accelerated provided the configured axis
is also non-negative. -/
theorem dispatch_training_generic_inference_accelerated
    (supportMKLDNN : NDArray → Bool) (param : SoftmaxParam) (ctx : OpContext)
    (inputs : List NDArray) :
    (ctx.is_train = true →
      (SoftmaxComputeExCPU supportMKLDNN param ctx inputs).1 = Path.generic) ∧
    (ctx.is_train = false → supportMKLDNN inputs.headI = true → 0 ≤ param.axis →
      (SoftmaxComputeExCPU supportMKLDNN param ctx inputs).1 = Path.accelerated) := by
  constructor
  · intro ht
    unfold SoftmaxComputeExCPU
    rw [if_neg (by simp [ht])]
  · intro hf hs ha
    unfold SoftmaxComputeExCPU
    rw [if_pos (by simp [hf, hs, ha])]

/-- Witness for the amended claim C2: a training call goes Generic and an
inference call with supported layout and axis 1 goes Accelerated. -/
theorem dispatch_training_generic_inference_accelerated_witness :
    (SoftmaxComputeExCPU (fun _ => true) ⟨1⟩ ⟨true⟩ []).1 = Path.generic ∧
    (SoftmaxComputeExCPU (fun _ => true) ⟨1⟩ ⟨false⟩ []).1 = Path.accelerated :=
  ⟨(dispatch_training_generic_inference_accelerated (fun _ => true) ⟨1⟩ ⟨true⟩ []).1 rfl,
   (dispatch_training_generic_inference_accelerated (fun _ => true) ⟨1⟩ ⟨false⟩ []).2
     rfl rfl (by decide)⟩

/-- Claim C3: both softmax and log-softmax register their gradient with
`ElemwiseGradUseOut`: the backward node's declared dependencies are the
head gradient and the forward's own output, and never the original
input. -/
theorem fgradient_uses_output_not_input :
    TensorRole.outputY ∈ softmaxFGradient.2 ∧
    TensorRole.inputX ∉ softmaxFGradient.2 ∧
    TensorRole.outputY ∈ log_softmaxFGradient.2 ∧
    TensorRole.inputX ∉ log_softmaxFGradient.2 ∧
    softmaxFGradient.1 = "_backward_softmax" ∧
    log_softmaxFGradient.1 = "_backward_log_softmax" := by
  refine ⟨by decide, by decide, by decide, by decide, rfl, rfl⟩

/-- Claim C4: log-softmax-backward (`SoftmaxGrad` instantiated with
`mshadow_op::left` and `log_softmax_bwd`) computes
`dx i = dy i - exp (y i) * ∑ j, dy j`, the per-axis reduction summing
`dy` alone (the `left` map discards the saved output). -/
theorem log_softmax_backward_formula {n : ℕ} (dy y : Fin n → ℝ) :
    SoftmaxGrad left log_softmax_bwd dy y =
      (fun i => dy i - Real.exp (y i) * ∑ j, dy j) ∧
    (∑ j, left (dy j) (y j)) = ∑ j, dy j := by
  exact ⟨rfl, rfl⟩

/-- Claim C5: softmax-backward (`SoftmaxGrad` instantiated with
`mshadow_op::mul` and `softmax_bwd`) computes
`dx i = y i * (dy i - ∑ j, dy j * y j)` from the saved forward output. -/
theorem softmax_backward_formula {n : ℕ} (dy y : Fin n → ℝ) :
    SoftmaxGrad mul softmax_bwd dy y =
      (fun i => y i * (dy i - ∑ j, dy j * y j)) ∧
    (∑ j, mul (dy j) (y j)) = ∑ j, dy j * y j := by
  exact ⟨rfl, rfl⟩

/-- Counterexample for claim C6: construction stores the negative axis
`-1` unchanged — it is not normalized to a non-negative value before the
dispatch reads it, and the dispatch consequently selects Generic even in
inference mode with a supported layout. -/
theorem negative_axis_not_normalized_at_construction_cex :
    ¬ (0 ≤ (SoftmaxParam.init (-1)).axis) ∧
    (SoftmaxComputeExCPU (fun _ => true) (SoftmaxParam.init (-1)) ⟨false⟩
        [⟨StorageLayout.denseLayout⟩]).1 = Path.generic := by
  decide

/-- Claim C6 (amended): a negative configured axis is stored unchanged at
construction; normalization via `axis + rank` happens only at call time
(`CheckAxis`) inside the generic kernel, after the per-call dispatch has
read the raw configured axis, so a negative configured axis always forces
the Generic path. -/
theorem negative_axis_call_time_normalization
    (axis : Int) (rank : Nat) (h : axis < 0)
    (supportMKLDNN : NDArray → Bool) (ctx : OpContext) (inputs : List NDArray) :
    (SoftmaxParam.init axis).axis = axis ∧
    CheckAxis axis rank = axis + rank ∧
    (SoftmaxComputeExCPU supportMKLDNN (SoftmaxParam.init axis) ctx inputs).1 =
      Path.generic := by
  refine ⟨rfl, by rw [CheckAxis, if_pos h], ?_⟩
  unfold SoftmaxComputeExCPU
  rw [if_neg (by simp [SoftmaxParam.init, not_le.mpr h])]

/-- Witness for the amended claim C6 at axis `-1`, rank 3. -/
theorem negative_axis_call_time_normalization_witness :
    (SoftmaxParam.init (-1)).axis = -1 ∧
    CheckAxis (-1) 3 = -1 + 3 ∧
    (SoftmaxComputeExCPU (fun _ => true) (SoftmaxParam.init (-1)) ⟨false⟩ []).1 =
      Path.generic :=
  negative_axis_call_time_normalization (-1) 3 (by decide) (fun _ => true) ⟨false⟩ []

/-- Claim C7: the backend decision is a function of the configuration's
axis, the execution-mode flag, and the layout-support verdict alone: two
calls agreeing on those three produce the same decision. -/
theorem dispatch_decision_deterministic
    (s s' : NDArray → Bool) (p p' : SoftmaxParam) (c c' : OpContext)
    (inputs inputs' : List NDArray)
    (hs : s inputs.headI = s' inputs'.headI)
    (hp : p.axis = p'.axis) (hc : c.is_train = c'.is_train) :
    (SoftmaxComputeExCPU s p c inputs).1 = (SoftmaxComputeExCPU s' p' c' inputs').1 := by
  unfold SoftmaxComputeExCPU
  rw [hs, hp, hc]
  by_cases h : (s' inputs'.headI && !c'.is_train && decide (0 ≤ p'.axis)) = true
  · rw [if_pos h, if_pos h]
  · rw [if_neg h, if_neg h]

/-- Witness for claim C7: two calls on arrays of different layouts that
the oracle judges alike make the same decision. -/
theorem dispatch_decision_deterministic_witness :
    (SoftmaxComputeExCPU (fun _ => true) ⟨2⟩ ⟨false⟩
        [⟨StorageLayout.denseLayout⟩]).1 =
    (SoftmaxComputeExCPU (fun _ => true) ⟨2⟩ ⟨false⟩
        [⟨StorageLayout.mkldnnLayout⟩]).1 :=
  dispatch_decision_deterministic (fun _ => true) (fun _ => true) ⟨2⟩ ⟨2⟩
    ⟨false⟩ ⟨false⟩ [⟨StorageLayout.denseLayout⟩] [⟨StorageLayout.mkldnnLayout⟩]
    rfl rfl rfl

/-- Claim C8: a call whose input or output attribute count differs from
one fails with an arity error raised before any computation, and the
output attribute vector is returned unchanged. -/
theorem arity_error_before_compute (dev : Nat) (inA outA : List Int)
    (h : inA.length ≠ 1 ∨ outA.length ≠ 1) :
    ∃ e, SoftmaxStorageType dev inA outA = (outA, Except.error e) := by
  unfold SoftmaxStorageType
  rcases h with h | h
  · exact ⟨_, by rw [if_pos h]⟩
  · by_cases h1 : inA.length ≠ 1
    · exact ⟨_, by rw [if_pos h1]⟩
    · exact ⟨_, by rw [if_neg h1, if_pos h]⟩

/-- Witness for claim C8: zero inputs with one output attribute of value
7 yields an arity error and leaves the output attribute vector intact. -/
theorem arity_error_before_compute_witness :
    ∃ e, SoftmaxStorageType 1 [] [7] = ([7], Except.error e) :=
  arity_error_before_compute 1 [] [7] (Or.inl (by decide))

/-- The singular helper lemma: summing pairs over a singleton attribute
vector.  Evaluates `storage_type_assign` on a one-element list. -/
theorem storage_type_assign_singleton (o i : Int) :
    storage_type_assign [o] i =
      (if o = -1 then ([i], true) else ([o], decide (o = i))) := by
  unfold storage_type_assign type_assign
  by_cases h : o = -1
  · simp [h]
  · simp [h]

/-- Claim C10: when storage inference succeeds, the single output
attribute is assigned exactly the input's storage type. -/
theorem storage_type_preserved (dev : Nat) (i o : Int) (m : DispatchMode)
    (hok : (SoftmaxStorageType dev [i] [o]).2 = Except.ok (m, true)) :
    (SoftmaxStorageType dev [i] [o]).1 = [i] := by
  unfold SoftmaxStorageType at hok ⊢
  rw [if_neg (by simp), if_neg (by simp)] at hok ⊢
  simp only [List.headI, storage_type_assign_singleton] at hok ⊢
  by_cases h : o = -1
  · simp [h]
  · simp only [h, if_false] at hok ⊢
    have : decide (o = i) = true := by
      by_contra hd
      rw [Bool.not_eq_true] at hd
      simp [hd] at hok
    rw [decide_eq_true_eq] at this
    rw [this]

/-- Witness for claim C10: input storage type 2, undefined output slot. -/
theorem storage_type_preserved_witness :
    (SoftmaxStorageType 1 [2] [-1]).2 = Except.ok (DispatchMode.kFComputeEx, true) ∧
    (SoftmaxStorageType 1 [2] [-1]).1 = [2] :=
  ⟨rfl, storage_type_preserved 1 2 (-1) DispatchMode.kFComputeEx rfl⟩

/-- The axis maximum of a length-one slice is its single element. -/
theorem axisMax_singleton (v : Fin 1 → ℝ) : axisMax v = v 0 := by
  refine le_antisymm (Finset.sup'_le _ _ fun i _ => ?_)
    (Finset.le_sup' v (Finset.mem_univ 0))
  rw [Fin.eq_zero i]

/-- Claim C9: on a tensor whose normalized axis has length one, the
softmax forward output is exactly 1 and the log-softmax forward output is
exactly 0 at every element. -/
theorem degenerate_axis_exact_outputs {β : Type} (x : β → Fin 1 → ℝ)
    (b : β) (i : Fin 1) :
    SoftmaxComputeBatched softmax_fwd x b i = 1 ∧
    SoftmaxComputeBatched log_softmax_fwd x b i = 0 := by
  have hmax := axisMax_singleton (x b)
  have hi : i = 0 := Subsingleton.elim i 0
  constructor
  · show softmax_fwd (x b i - axisMax (x b)) (∑ j, Real.exp (x b j - axisMax (x b))) = 1
    rw [hi, hmax, Fin.sum_univ_one]
    simp [softmax_fwd, sub_self, Real.exp_zero]
  · show log_softmax_fwd (x b i - axisMax (x b)) (∑ j, Real.exp (x b j - axisMax (x b))) = 0
    rw [hi, hmax, Fin.sum_univ_one]
    simp [log_softmax_fwd, sub_self, Real.exp_zero, Real.log_one]

end MXNet
